import Mathlib

/-!
Verification development for the instruction codec and builder layer of a
Solana client library: the SPL Name Service instruction builders/decoders
(`spl/name_service/name_program.py`, `_layouts.py`, `constants.py`), the memo
program helpers (`src/memo/memo_program.py`), and the program-derived-address
search described by the specification.

Byte strings are modelled as `List Nat` (each entry a byte value), public keys
as 32-byte strings, and the `construct` layouts as explicit little-endian
readers and writers over such lists.  Functions that can raise in Python
return `Option` or `Except` here.
-/

namespace SolanaPy

/-- A byte string: a list of byte values. -/
abbrev Bytes := List Nat

/-- A public key is an opaque 32-byte value (`solana.publickey.PublicKey`). -/
abbrev PublicKey := Bytes

/-- The system program id (`solana.program_pubkeys.SYS_PROGRAM_ID`): the
32-zero-byte well-known default address, base58 thirty-two ones. -/
def SYS_PROGRAM_ID : PublicKey := List.replicate 32 0

/-- Devnet name program id from `spl/name_service/constants.py`:
base58 decoding of the string Gh9eN9nDuS3ysmAkKf4QJ6yBzf3YNqsn6MD8Ms3TsXmA. -/
def DEVNET_NAME_PROGRAM_ID : PublicKey :=
  [233, 40, 79, 112, 78, 155, 104, 69, 235, 221, 142, 252, 158, 190, 202, 176,
   153, 13, 208, 73, 198, 106, 41, 142, 50, 16, 25, 96, 8, 246, 128, 105]

/-- Modelled from the spec: the memo program identifier constant
(`spl.memo.constants.MEMO_PROGRAM`, not under src/); §4.5 lists it among the
static Program Registry identifiers.  Base58 decoding of the canonical memo
program address MemoSq4gqABAXKb96qnH8TysNcWxMyWCqXgDLGmfcHr. -/
def MEMO_PROGRAM : PublicKey :=
  [5, 74, 83, 90, 153, 41, 33, 6, 77, 36, 232, 113, 96, 218, 56, 124,
   124, 53, 181, 221, 188, 146, 187, 129, 228, 31, 168, 64, 65, 5, 68, 141]

/-- All accounts reserve this many extra bytes for metadata
(`spl/name_service/constants.py`, REQ_INITIAL_ACCOUNT_BUFFER). -/
def REQ_INITIAL_ACCOUNT_BUFFER : Nat := 96

/-- Model of `solana.transaction.AccountMeta`: an account reference inside an
instruction. -/
structure AccountMeta where
  pubkey : PublicKey
  is_signer : Bool
  is_writable : Bool
deriving Repr, DecidableEq

/-- Model of `solana.transaction.TransactionInstruction`: target program, ordered
account references, opaque payload bytes. -/
structure TransactionInstruction where
  keys : List AccountMeta
  program_id : PublicKey
  data : Bytes
deriving Repr, DecidableEq

/-! ### Layout codec (`spl/name_service/_layouts.py`)

`construct` primitives: `Int32ul`/`Int64ul` are unsigned little-endian and
raise on build when the value exceeds the field width; `Bytes n` raises on
build when the payload length differs from `n`. -/

/-- Little-endian 4-byte encoding of a value already known to fit. -/
def u32le (n : Nat) : Bytes :=
  [n % 256, n / 256 % 256, n / 65536 % 256, n / 16777216 % 256]

/-- Encoder `Int32ul.build`: fails when the value does not fit in 32 bits. -/
def u32leB (n : Nat) : Option Bytes :=
  if n < 4294967296 then some (u32le n) else none

/-- Little-endian 8-byte encoding of a value already known to fit. -/
def u64le (n : Nat) : Bytes :=
  [n % 256, n / 256 % 256, n / 65536 % 256, n / 16777216 % 256,
   n / 4294967296 % 256, n / 1099511627776 % 256,
   n / 281474976710656 % 256, n / 72057594037927936 % 256]

/-- Encoder `Int64ul.build`: fails when the value does not fit in 64 bits. -/
def u64leB (n : Nat) : Option Bytes :=
  if n < 18446744073709551616 then some (u64le n) else none

/-- Encoder `Bytes(32).build`: fails unless the payload is exactly 32 bytes. -/
def bytes32B (b : Bytes) : Option Bytes :=
  if b.length = 32 then some b else none

/-- Reader `Int32ul.parse`: read a 4-byte little-endian integer, returning the value
and the remaining buffer; fails when fewer than 4 bytes remain. -/
def readU32 : Bytes → Option (Nat × Bytes)
  | b0 :: b1 :: b2 :: b3 :: r =>
      some (b0 + 256 * b1 + 65536 * b2 + 16777216 * b3, r)
  | _ => none

/-- Reader `Int64ul.parse`: read an 8-byte little-endian integer. -/
def readU64 : Bytes → Option (Nat × Bytes)
  | b0 :: b1 :: b2 :: b3 :: b4 :: b5 :: b6 :: b7 :: r =>
      some (b0 + 256 * b1 + 65536 * b2 + 16777216 * b3 +
            4294967296 * b4 + 1099511627776 * b5 +
            281474976710656 * b6 + 72057594037927936 * b7, r)
  | _ => none

/-- Reader `Bytes(n).parse`: read exactly `n` bytes; fails when fewer remain. -/
def readBytes (n : Nat) (b : Bytes) : Option (Bytes × Bytes) :=
  if n ≤ b.length then some (b.take n, b.drop n) else none

/-- Parsed `args` of NAME_PROGRAM_INSTRUCTIONS_LAYOUT: one case per
`InstructionType` (Create=0, Update=1, Transfer=2, Delete=3). -/
inductive NameArgs where
  | create (hashed_name_size : Nat) (hashed_name : Bytes)
      (lamports : Nat) (space : Nat)
  | update (offset : Nat) (size : Nat) (input_data : Bytes)
  | transfer (new_owner : Bytes)
  | delete
deriving Repr, DecidableEq

/-- The `Switch` body of NAME_PROGRAM_INSTRUCTIONS_LAYOUT.parse: the variant
layout selected by the discriminant.  The outer `Option` is parse failure
(a construct StreamError from a reader hitting the end of the buffer); the
inner `Option` is the parsed args value.  The layout declares no `default`
case, and construct (>= 2.9, the repository pins >= 2.10.56) substitutes
`Pass` for a missing Switch default, so a discriminant outside the
enumeration parses successfully, consumes nothing, and yields args None —
the inner `none` here. -/
def parseArgs (d : Nat) (b : Bytes) : Option (Option NameArgs) :=
  match d with
  | 0 =>
    match readU32 b with
    | none => none
    | some (hns, b) =>
      match readBytes 32 b with
      | none => none
      | some (hn, b) =>
        match readU64 b with
        | none => none
        | some (l, b) =>
          match readU32 b with
          | none => none
          | some (s, _) => some (some (.create hns hn l s))
  | 1 =>
    match readU32 b with
    | none => none
    | some (off, b) =>
      match readU32 b with
      | none => none
      | some (sz, b) =>
        match readBytes sz b with
        | none => none
        | some (dat, _) => some (some (.update off sz dat))
  | 2 =>
    match readBytes 32 b with
    | none => none
    | some (no, _) => some (some (.transfer no))
  | 3 => some (some .delete)
  | _ => some none

/-- NAME_PROGRAM_INSTRUCTIONS_LAYOUT.parse: a one-byte discriminant followed
by the variant payload (None when the discriminant has no switch case). -/
def parseLayout : Bytes → Option (Nat × Option NameArgs)
  | [] => none
  | d :: rest => (parseArgs d rest).map (fun a => (d, a))

/-! ### Instruction params (`spl/name_service/name_program.py`) -/

/-- CreateNameParams.  `owner_account` is `None` by default (resolved to the
funding account at build time); class, parent and parent-owner accounts
default to the system program id. -/
structure CreateNameParams where
  funding_account : PublicKey
  hashed_name : Bytes
  lamports : Nat
  space : Nat
  owner_account : Option PublicKey := none
  class_account : PublicKey := SYS_PROGRAM_ID
  parent_account : PublicKey := SYS_PROGRAM_ID
  parent_owner_account : PublicKey := SYS_PROGRAM_ID
  name_program_id : PublicKey := DEVNET_NAME_PROGRAM_ID
deriving Repr, DecidableEq

/-- UpdateNameParams. -/
structure UpdateNameParams where
  name_account : PublicKey
  offset : Nat
  input_data : Bytes
  name_update_signer : PublicKey
  name_program_id : PublicKey := DEVNET_NAME_PROGRAM_ID
deriving Repr, DecidableEq

/-- TransferNameParams. -/
structure TransferNameParams where
  name_account : PublicKey
  new_owner_account : PublicKey
  owner_account : PublicKey
  class_account : PublicKey := SYS_PROGRAM_ID
  name_program_id : PublicKey := DEVNET_NAME_PROGRAM_ID
deriving Repr, DecidableEq

/-- DeleteNameParams.  The refund account defaults to the owner. -/
structure DeleteNameParams where
  name_account : PublicKey
  owner_account : PublicKey
  refund_account : Option PublicKey := none
  name_program_id : PublicKey := DEVNET_NAME_PROGRAM_ID
deriving Repr, DecidableEq

/-- MemoParams (`src/memo/memo_program.py`). -/
structure MemoParams where
  signer : PublicKey
  message : Bytes
  memo_program_id : PublicKey := MEMO_PROGRAM
deriving Repr, DecidableEq

/-- The distinct synchronous failures a builder call can raise in Python:
a construct encoding error, a failed program-address derivation, the explicit
ValueError guarding the parent-owner constraint, and the AttributeError raised
by an access to a field that does not exist on the params object. -/
inductive BuildError where
  | encodingError
  | derivationError
  | constraintError
  | attributeError
deriving Repr, DecidableEq

/-- NAME_PROGRAM_INSTRUCTIONS_LAYOUT.build for the Create variant, as invoked
by `create_name`: discriminant 0, then `hashed_name_size = len(hashed_name)`,
the 32-byte hashed name, lamports, and `space + REQ_INITIAL_ACCOUNT_BUFFER`. -/
def buildCreateData (p : CreateNameParams) : Option Bytes := do
  let hns ← u32leB p.hashed_name.length
  let hn ← bytes32B p.hashed_name
  let l ← u64leB p.lamports
  let s ← u32leB (p.space + REQ_INITIAL_ACCOUNT_BUFFER)
  pure ([0] ++ hns ++ hn ++ l ++ s)

/-- NAME_PROGRAM_INSTRUCTIONS_LAYOUT.build for the Update variant, as invoked
by `update_name`: discriminant 1, offset, `size = len(input_data)`, then the
payload bytes. -/
def buildUpdateData (p : UpdateNameParams) : Option Bytes := do
  let off ← u32leB p.offset
  let sz ← u32leB p.input_data.length
  pure ([1] ++ off ++ sz ++ p.input_data)

/-- NAME_PROGRAM_INSTRUCTIONS_LAYOUT.build for the Transfer variant:
discriminant 2 followed by the 32-byte new owner key. -/
def buildTransferData (p : TransferNameParams) : Option Bytes := do
  let no ← bytes32B p.new_owner_account
  pure ([2] ++ no)

/-- The type of `PublicKey.find_program_address` as consumed by the builders:
seed list and program id to derived address and bump, or failure. -/
abbrev Fpa := List Bytes → PublicKey → Option (PublicKey × Nat)

/-- Builder `create_name`: build the payload, derive the name record address from
`[hashed_name, class bytes, parent bytes]`, enforce the parent-owner
constraint, then assemble the account list (4 fixed entries, the class entry
whose signer flag depends on the class being non-default, the parent entry,
and a trailing parent-owner signer entry only when the parent is
non-default). -/
def create_name (fpa : Fpa) (p : CreateNameParams) :
    Except BuildError TransactionInstruction :=
  match buildCreateData p with
  | none => .error .encodingError
  | some data =>
    match fpa [p.hashed_name, p.class_account, p.parent_account]
        p.name_program_id with
    | none => .error .derivationError
    | some (name_record_pubkey, _) =>
      if p.parent_account ≠ SYS_PROGRAM_ID ∧
          p.parent_owner_account = SYS_PROGRAM_ID then
        .error .constraintError
      else
        .ok
          { keys :=
              [⟨SYS_PROGRAM_ID, false, false⟩,
               ⟨p.funding_account, true, true⟩,
               ⟨name_record_pubkey, false, true⟩,
               ⟨p.owner_account.getD p.funding_account, false, false⟩] ++
              (if p.class_account ≠ SYS_PROGRAM_ID then
                [⟨p.class_account, true, false⟩]
              else
                [⟨p.class_account, false, false⟩]) ++
              [⟨p.parent_account, false, false⟩] ++
              (if p.parent_account ≠ SYS_PROGRAM_ID then
                [⟨p.parent_owner_account, true, false⟩]
              else []),
            program_id := p.name_program_id,
            data := data }

/-- Builder `update_name`: two account references, the target account writable and the
update authority as signer. -/
def update_name (p : UpdateNameParams) :
    Except BuildError TransactionInstruction :=
  match buildUpdateData p with
  | none => .error .encodingError
  | some data =>
    .ok
      { keys := [⟨p.name_account, false, true⟩,
                 ⟨p.name_update_signer, true, false⟩],
        program_id := p.name_program_id,
        data := data }

/-- Builder `transfer_name`.  The non-default-class branch evaluates
`params.params.class_account`; `TransferNameParams` has no field `params`, so
Python raises AttributeError there instead of appending the class entry. -/
def transfer_name (p : TransferNameParams) :
    Except BuildError TransactionInstruction :=
  match buildTransferData p with
  | none => .error .encodingError
  | some data =>
    if p.class_account ≠ SYS_PROGRAM_ID then
      .error .attributeError
    else
      .ok
        { keys := [⟨p.name_account, false, true⟩,
                   ⟨p.owner_account, true, false⟩],
          program_id := p.name_program_id,
          data := data }

/-- Builder `delete_name`: empty Delete payload after the discriminant; target
account, owner signer, and refund account defaulted to the owner. -/
def delete_name (p : DeleteNameParams) : TransactionInstruction :=
  { keys := [⟨p.name_account, false, true⟩,
             ⟨p.owner_account, true, false⟩,
             ⟨p.refund_account.getD p.owner_account, false, true⟩],
    program_id := p.name_program_id,
    data := [3] }

/-- Builder `memo_instruction`: a single signer/writable reference for the author and
the raw message bytes as payload. -/
def memo_instruction (p : MemoParams) : TransactionInstruction :=
  { keys := [⟨p.signer, true, true⟩],
    program_id := p.memo_program_id,
    data := p.message }

/-- Decoder `decode_memo_instruction`: reads the signer from `instruction.keys[1]`
and the message from the raw data.  The index-1 access raises IndexError in
Python when fewer than two references exist, modelled as `none`. -/
def decode_memo_instruction (i : TransactionInstruction) : Option MemoParams :=
  (i.keys[1]?).map fun k =>
    { signer := k.pubkey, message := i.data, memo_program_id := i.program_id }

/-- Modelled from the spec: `validate_instruction_keys`
(`solana.utils.validate`, not under src/).  §4.4: confirm the reference list
has exactly the expected length. -/
def validate_instruction_keys (i : TransactionInstruction) (expected : Nat) :
    Bool :=
  i.keys.length == expected

/-- Decoder `decode_create_name`: validate exactly 6 account references, parse the
payload, check the discriminant is Create, then rebuild the params taking the
funding account from reference index 1 and leaving every optional field at
its default. -/
def decode_create_name (i : TransactionInstruction) :
    Option CreateNameParams :=
  if validate_instruction_keys i 6 then
    match parseLayout i.data with
    | none => none
    | some (t, args) =>
      if t = 0 then
        match args, i.keys[1]? with
        | some (.create _ hn l s), some k =>
            some { funding_account := k.pubkey, hashed_name := hn,
                   lamports := l, space := s, name_program_id := i.program_id }
        | _, _ => none
      else none
  else none

/-! ### Program-derived-address search (spec §4.3)

`PublicKey.find_program_address` lives in `solana/publickey.py`, which is not
under src/, so the search is modelled from the spec.  The hash function and
the curve-point decompression test are its parameters. -/

/-- The fixed domain separator appended before hashing, the byte values of
the string ProgramDerivedAddress. -/
def PDA_DOMAIN_SEPARATOR : Bytes :=
  [80, 114, 111, 103, 114, 97, 109, 68, 101, 114, 105, 118, 101, 100,
   65, 100, 100, 114, 101, 115, 115]

/-- Modelled from the spec: the candidate digest for one bump value, the hash
of the seeds in caller order, then the bump byte, then the program id bytes,
then the domain separator (§4.3). -/
def deriveDigest (hash : Bytes → Bytes) (seeds : List Bytes)
    (program_id : PublicKey) (bump : Nat) : Bytes :=
  hash (seeds.flatten ++ [bump] ++ program_id ++ PDA_DOMAIN_SEPARATOR)

/-- Modelled from the spec: the bump search.  `fuel` counts the candidates
still to try; the candidate tried at fuel `f + 1` is bump `f`, so starting
from fuel 256 tries bumps 255 down to 0 and fails when the range is
exhausted (§4.3). -/
def fpaSearch (hash : Bytes → Bytes) (onCurve : Bytes → Bool)
    (seeds : List Bytes) (program_id : PublicKey) :
    Nat → Option (PublicKey × Nat)
  | 0 => none
  | fuel + 1 =>
    let d := deriveDigest hash seeds program_id fuel
    if onCurve d then fpaSearch hash onCurve seeds program_id fuel
    else some (d, fuel)

/-- Modelled from the spec: `PublicKey.find_program_address` (not under
src/); §4.3: decrement the bump from 255 toward 0 and accept the first
candidate digest that does not decompress to a curve point. -/
def find_program_address (hash : Bytes → Bytes) (onCurve : Bytes → Bool)
    (seeds : List Bytes) (program_id : PublicKey) :
    Option (PublicKey × Nat) :=
  fpaSearch hash onCurve seeds program_id 256

/-- Any address accepted by the bump search fails the curve test. -/
theorem fpaSearch_off_curve {hash : Bytes → Bytes} {onCurve : Bytes → Bool}
    {seeds : List Bytes} {program_id : PublicKey} {fuel : Nat}
    {addr : PublicKey} {bump : Nat}
    (h : fpaSearch hash onCurve seeds program_id fuel = some (addr, bump)) :
    onCurve addr = false := by
  induction fuel with
  | zero => simp [fpaSearch] at h
  | succ f ih =>
    unfold fpaSearch at h
    by_cases hc : onCurve (deriveDigest hash seeds program_id f)
    · exact ih (by simpa [hc] using h)
    · simp only [hc, if_neg, Bool.false_eq_true, not_false_eq_true,
        if_false] at h
      obtain ⟨rfl, rfl⟩ := Prod.mk.injEq .. ▸ Option.some.injEq .. ▸ h
      simpa using hc

/-- C7: for every seed list and program identifier, an address returned by
the Address Deriver never passes the curve-point decompression test, for any
hash function and any decompression test the search is run with. -/
theorem find_program_address_off_curve (hash : Bytes → Bytes)
    (onCurve : Bytes → Bool) (seeds : List Bytes) (program_id : PublicKey)
    (addr : PublicKey) (bump : Nat)
    (h : find_program_address hash onCurve seeds program_id =
      some (addr, bump)) :
    onCurve addr = false :=
  fpaSearch_off_curve h

/-- C7 witness: a concrete run of the search returns an address, and that
address fails the supplied curve test. -/
theorem find_program_address_off_curve_witness :
    (fun _ : Bytes => false) [0] = false :=
  find_program_address_off_curve (fun _ => [0]) (fun _ => false) [] [] [0] 255
    rfl

/-! ### Decoder failure on short buffers and unknown discriminants -/

/-- A successful 4-byte read consumes exactly four bytes. -/
theorem readU32_length {b : Bytes} {n : Nat} {r : Bytes}
    (h : readU32 b = some (n, r)) : b.length = r.length + 4 := by
  unfold readU32 at h
  split at h
  · obtain ⟨rfl, rfl⟩ := Prod.mk.injEq .. ▸ Option.some.injEq .. ▸ h
    simp
  · exact absurd h (by simp)

/-- A successful 8-byte read consumes exactly eight bytes. -/
theorem readU64_length {b : Bytes} {n : Nat} {r : Bytes}
    (h : readU64 b = some (n, r)) : b.length = r.length + 8 := by
  unfold readU64 at h
  split at h
  · obtain ⟨rfl, rfl⟩ := Prod.mk.injEq .. ▸ Option.some.injEq .. ▸ h
    simp
  · exact absurd h (by simp)

/-- A successful fixed-width byte read requires that many bytes present. -/
theorem readBytes_length {n : Nat} {b x r : Bytes}
    (h : readBytes n b = some (x, r)) :
    n ≤ b.length ∧ b.length = r.length + n := by
  unfold readBytes at h
  split at h
  · obtain ⟨rfl, rfl⟩ := Prod.mk.injEq .. ▸ Option.some.injEq .. ▸ h
    refine ⟨by assumption, ?_⟩
    simp only [List.length_drop]
    omega
  · exact absurd h (by simp)

/-- The minimum payload length (discriminant byte included) admitted by each
discriminant of NAME_PROGRAM_INSTRUCTIONS_LAYOUT: Create needs 1+4+32+8+4
bytes, Update 1+4+4 (with an empty variable part), Transfer 1+32, Delete 1. -/
def minimumLength (d : Nat) : Nat :=
  match d with
  | 0 => 49
  | 1 => 9
  | 2 => 33
  | 3 => 1
  | _ => 1

/-- Whenever the layout parses, the buffer starts with the returned
discriminant and is at least the discriminant's minimum length. -/
theorem parseLayout_length {data : Bytes} {d : Nat} {a : Option NameArgs}
    (h : parseLayout data = some (d, a)) :
    data.head? = some d ∧ minimumLength d ≤ data.length := by
  match data with
  | [] => exact absurd h (by simp [parseLayout])
  | d0 :: rest =>
    rw [parseLayout] at h
    obtain ⟨a', ha, hpair⟩ := Option.map_eq_some'.mp h
    obtain ⟨rfl, rfl⟩ := Prod.mk.injEq .. ▸ hpair
    refine ⟨rfl, ?_⟩
    match d0 with
    | 0 =>
      rw [parseArgs] at ha
      split at ha
      case _ => exact absurd ha (by simp)
      case _ h1 =>
        split at ha
        case _ => exact absurd ha (by simp)
        case _ h2 =>
          split at ha
          case _ => exact absurd ha (by simp)
          case _ h3 =>
            split at ha
            case _ => exact absurd ha (by simp)
            case _ h4 =>
              have l1 := readU32_length h1
              have l2 := readBytes_length h2
              have l3 := readU64_length h3
              have l4 := readU32_length h4
              simp only [minimumLength, List.length_cons]
              omega
    | 1 =>
      rw [parseArgs] at ha
      split at ha
      case _ => exact absurd ha (by simp)
      case _ h1 =>
        split at ha
        case _ => exact absurd ha (by simp)
        case _ h2 =>
          split at ha
          case _ => exact absurd ha (by simp)
          case _ h3 =>
            have l1 := readU32_length h1
            have l2 := readU32_length h2
            have l3 := readBytes_length h3
            simp only [minimumLength, List.length_cons]
            omega
    | 2 =>
      rw [parseArgs] at ha
      split at ha
      case _ => exact absurd ha (by simp)
      case _ h1 =>
        have l1 := readBytes_length h1
        simp only [minimumLength, List.length_cons]
        omega
    | 3 =>
      simp only [minimumLength, List.length_cons]
      omega
    | (n + 4) =>
      simp only [minimumLength, List.length_cons]
      omega

/-- Parsing fails on every buffer shorter than the minimum length for its
leading discriminant. -/
theorem parseLayout_rejects_short (data : Bytes) (d : Nat)
    (hd : data.head? = some d)
    (hlen : data.length < minimumLength d) : parseLayout data = none := by
  by_contra hne
  obtain ⟨⟨d', a⟩, hp⟩ := Option.ne_none_iff_exists'.mp hne
  obtain ⟨hd', hmin⟩ := parseLayout_length hp
  rw [hd] at hd'
  obtain rfl := Option.some.injEq .. ▸ hd'
  omega

/-- C6: the short-buffer half of the claim holds — a one-byte Create buffer
and a 48-byte Create buffer, both below the 49-byte minimum, fail to parse,
as does the empty buffer — but the unknown-discriminant half fails on the
code: the layout's Switch has no default case and construct substitutes Pass
for it, so the one-byte buffer with discriminant 7, outside the enumeration
0..3, parses successfully with args None instead of raising. -/
theorem parse_short_rejected_unknown_discriminant_accepted :
    parseLayout [0] = none ∧
    parseLayout (0 :: List.replicate 47 0) = none ∧
    parseLayout [] = none ∧
    parseLayout [7] = some (7, none) ∧
    (7 : Nat) ∉ ([0, 1, 2, 3] : List Nat) := by
  decide

/-! ### Concrete fixtures for scenario and round-trip checks -/

/-- A concrete funding account key. -/
def testFundingKey : PublicKey := List.replicate 32 1

/-- A concrete 32-byte hashed name. -/
def testHashedName : Bytes := List.replicate 32 5

/-- A concrete derived name-record address. -/
def testDerivedKey : PublicKey := List.replicate 32 9

/-- A derivation function that succeeds on every input, standing in for a
concrete `find_program_address` run. -/
def fpaConst : Fpa := fun _ _ => some (testDerivedKey, 255)

/-- The create params of the repository's own unit test: lamports 123,
space 1, every optional field at its default. -/
def testCreateParams : CreateNameParams :=
  { funding_account := testFundingKey, hashed_name := testHashedName,
    lamports := 123, space := 1 }

/-- A concrete memo params value with message bytes of the string hello. -/
def testMemoParams : MemoParams :=
  { signer := testFundingKey, message := [104, 101, 108, 108, 111] }

/-- C1: the round-trip law fails on the code.  On the unit test's own create
input (space 1) the decoded params carry space 97 — `create_name` adds the
96-byte buffer to the encoded space and `decode_create_name` returns the
encoded value unadjusted — and the memo round trip fails outright because
`memo_instruction` emits one account reference while
`decode_memo_instruction` reads reference index 1. -/
theorem roundtrip_fails_on_create_and_memo :
    (match create_name fpaConst testCreateParams with
     | .ok i => decode_create_name i
     | .error _ => none) =
      some { testCreateParams with space := 97 } ∧
    (97 : Nat) ≠ testCreateParams.space ∧
    decode_memo_instruction (memo_instruction testMemoParams) = none := by
  decide

/-- C9: a memo instruction's payload is exactly the raw message bytes, with a
single signer/writable account reference for the author. -/
theorem memo_scenario (S : PublicKey) :
    memo_instruction { signer := S, message := [104, 101, 108, 108, 111] } =
      { keys := [⟨S, true, true⟩], program_id := MEMO_PROGRAM,
        data := [104, 101, 108, 108, 111] } :=
  rfl

/-- C8: the update scenario.  With offset 4 and a 2-byte payload the builder
emits discriminant 1, offset 4, size 2 and the payload, with the target
account writable and the update authority as the only signer; and the decoder
reads the size field rather than the remaining buffer length, returning the
same fields when arbitrary bytes are appended. -/
theorem update_scenario (N S pid : PublicKey) (junk : Bytes) :
    update_name
        { name_account := N, offset := 4, input_data := [1, 2],
          name_update_signer := S, name_program_id := pid } =
      .ok { keys := [⟨N, false, true⟩, ⟨S, true, false⟩],
            program_id := pid,
            data := [1, 4, 0, 0, 0, 2, 0, 0, 0, 1, 2] } ∧
    parseLayout ([1, 4, 0, 0, 0, 2, 0, 0, 0, 1, 2] ++ junk) =
      some (1, some (.update 4 2 [1, 2])) := by
  constructor
  · simp [update_name, buildUpdateData, u32leB, u32le]
  · simp [parseLayout, parseArgs, readU32, readBytes, List.take_cons]

/-- A concrete transfer params value whose class account is non-default. -/
def testTransferParams : TransferNameParams :=
  { name_account := List.replicate 32 3,
    new_owner_account := List.replicate 32 4,
    owner_account := List.replicate 32 6,
    class_account := List.replicate 32 2 }

/-- C4: the account-count invariant is broken by `transfer_name`.  On a
params value whose class account is non-default — exactly the case the claim
says yields 3 references — the builder raises AttributeError through the
misspelled access `params.params.class_account`; the fixed counts hold for
update and delete, shown here alongside. -/
theorem transfer_count_invariant_fails :
    testTransferParams.class_account ≠ SYS_PROGRAM_ID ∧
    (match transfer_name testTransferParams with
     | .error e => some e
     | .ok _ => none) = some .attributeError ∧
    (delete_name { name_account := List.replicate 32 3,
                   owner_account := List.replicate 32 6 }).keys.length = 3 ∧
    (match update_name { name_account := List.replicate 32 3, offset := 0,
                         input_data := [], name_update_signer :=
                           List.replicate 32 6 } with
     | .ok i => i.keys.length
     | .error _ => 0) = 2 := by
  decide

/-- Successful fixed-width read of an exact-length prefix returns that prefix
and the remainder. -/
theorem readBytes_exact {x r : Bytes} {n : Nat} (h : x.length = n) :
    readBytes n (x ++ r) = some (x, r) := by
  subst h
  simp [readBytes, List.take_left, List.drop_left]

/-- The create scenario params: lamports 123, space 10, defaults elsewhere. -/
def scenarioCreateParams : CreateNameParams :=
  { funding_account := testFundingKey, hashed_name := testHashedName,
    lamports := 123, space := 10 }

/-- C2 counterexample: on the scenario input (space 10, every optional field
default) the built payload decodes with space 106, not 10 — `create_name`
adds REQ_INITIAL_ACCOUNT_BUFFER to the space field before encoding. -/
theorem create_scenario_space_counterexample :
    (match create_name fpaConst scenarioCreateParams with
     | .ok i => parseLayout i.data
     | .error _ => none) =
      some (0, some (.create 32 testHashedName 123 106)) ∧
    NameArgs.create 32 testHashedName 123 106 ≠
      NameArgs.create 32 testHashedName 123 10 := by
  decide

/-- C2 (amended): the create scenario with the space field as the builder
encodes it.  For any funding key, any 32-byte hashed name and any derivation
call that succeeds on the scenario seed list, the built instruction's data
decodes to discriminant Create with hashed_name_size 32, the hashed name,
lamports 123 and space 106 (the requested 10 plus the 96-byte initial account
buffer), and account reference index 2 is the derived address, non-signer and
writable. -/
theorem create_scenario_amended (F H addr : PublicKey) (bump : Nat)
    (fpa : Fpa) (hH : H.length = 32)
    (hfpa : fpa [H, SYS_PROGRAM_ID, SYS_PROGRAM_ID] DEVNET_NAME_PROGRAM_ID =
      some (addr, bump)) :
    ∃ i,
      create_name fpa
          { funding_account := F, hashed_name := H, lamports := 123,
            space := 10 } = .ok i ∧
      parseLayout i.data = some (0, some (.create 32 H 123 106)) ∧
      i.keys[2]? = some ⟨addr, false, true⟩ := by
  have hdata : buildCreateData
      { funding_account := F, hashed_name := H, lamports := 123,
        space := 10 } =
      some (0 :: 32 :: 0 :: 0 :: 0 ::
        (H ++ [123, 0, 0, 0, 0, 0, 0, 0, 106, 0, 0, 0])) := by
    simp [buildCreateData, u32leB, u64leB, bytes32B, hH, u32le, u64le,
      REQ_INITIAL_ACCOUNT_BUFFER]
  refine ⟨{ keys := [⟨SYS_PROGRAM_ID, false, false⟩, ⟨F, true, true⟩,
                     ⟨addr, false, true⟩, ⟨F, false, false⟩,
                     ⟨SYS_PROGRAM_ID, false, false⟩,
                     ⟨SYS_PROGRAM_ID, false, false⟩],
            program_id := DEVNET_NAME_PROGRAM_ID,
            data := 0 :: 32 :: 0 :: 0 :: 0 ::
              (H ++ [123, 0, 0, 0, 0, 0, 0, 0, 106, 0, 0, 0]) },
         ?_, ?_, ?_⟩
  · simp [create_name, hdata, hfpa]
  · rw [parseLayout]
    rw [show parseArgs 0
          (32 :: 0 :: 0 :: 0 ::
            (H ++ [123, 0, 0, 0, 0, 0, 0, 0, 106, 0, 0, 0])) =
        some (some (.create 32 H 123 106)) from ?_]
    · rfl
    · rw [parseArgs]
      rw [show readU32 (32 :: 0 :: 0 :: 0 ::
            (H ++ [123, 0, 0, 0, 0, 0, 0, 0, 106, 0, 0, 0])) =
          some (32, H ++ [123, 0, 0, 0, 0, 0, 0, 0, 106, 0, 0, 0]) from by
        simp [readU32]]
      dsimp only
      rw [readBytes_exact hH]
      simp [readU64, readU32]
  · rfl

/-- C2 witness for the amended scenario, at the concrete fixture inputs. -/
theorem create_scenario_amended_witness :
    ∃ i,
      create_name fpaConst
          { funding_account := testFundingKey, hashed_name := testHashedName,
            lamports := 123, space := 10 } = .ok i ∧
      parseLayout i.data = some (0, some (.create 32 testHashedName 123 106)) ∧
      i.keys[2]? = some ⟨testDerivedKey, false, true⟩ :=
  create_scenario_amended testFundingKey testHashedName testDerivedKey 255
    fpaConst (by decide) rfl

/-- C3: building create with a non-default parent account while the
parent-owner account is left at its default fails synchronously with the
constraint error and produces no instruction; the payload encoding and the
address derivation are the only steps the source runs first, so both are
assumed to succeed. -/
theorem create_missing_parent_owner_constraint (fpa : Fpa)
    (p : CreateNameParams) (d : Bytes) (ab : PublicKey × Nat)
    (hd : buildCreateData p = some d)
    (hfpa : fpa [p.hashed_name, p.class_account, p.parent_account]
      p.name_program_id = some ab)
    (hp : p.parent_account ≠ SYS_PROGRAM_ID)
    (hpo : p.parent_owner_account = SYS_PROGRAM_ID) :
    create_name fpa p = .error .constraintError := by
  obtain ⟨a, b⟩ := ab
  simp [create_name, hd, hfpa, hp, hpo]

/-- Create params with a non-default parent and the parent owner left
default. -/
def testParentParamsNoOwner : CreateNameParams :=
  { funding_account := testFundingKey, hashed_name := testHashedName,
    lamports := 123, space := 10, parent_account := List.replicate 32 2 }

/-- C3 witness: the constraint fires on a concrete params value. -/
theorem create_missing_parent_owner_witness :
    create_name fpaConst testParentParamsNoOwner = .error .constraintError :=
  create_missing_parent_owner_constraint fpaConst testParentParamsNoOwner _ _
    rfl rfl (by decide) rfl

/-- C5: in every instruction the create builder actually produces, the class
account's reference (index 4) carries is_signer true exactly when the class
account differs from the default system address; and every reference marked
signer is one of the authorities the operation requires — the funding
account, a non-default class account, or the parent-owner account
accompanying a non-default parent. -/
theorem create_class_signer_flag (fpa : Fpa) (p : CreateNameParams)
    (i : TransactionInstruction) (h : create_name fpa p = .ok i) :
    i.keys[4]? = some ⟨p.class_account,
      if p.class_account = SYS_PROGRAM_ID then false else true, false⟩ ∧
    ∀ m ∈ i.keys, m.is_signer = true →
      m.pubkey = p.funding_account ∨
      (m.pubkey = p.class_account ∧ p.class_account ≠ SYS_PROGRAM_ID) ∨
      (m.pubkey = p.parent_owner_account ∧
        p.parent_account ≠ SYS_PROGRAM_ID) := by
  unfold create_name at h
  split at h
  · exact absurd h (by simp)
  · split at h
    · exact absurd h (by simp)
    · split at h
      · exact absurd h (by simp)
      · rw [Except.ok.injEq] at h
        subst h
        by_cases hc : p.class_account = SYS_PROGRAM_ID <;>
          by_cases hpp : p.parent_account = SYS_PROGRAM_ID <;>
            simp_all

/-- The concrete create instruction built from the fixture params. -/
def testCreateInstr : TransactionInstruction :=
  (create_name fpaConst testCreateParams).toOption.getD ⟨[], [], []⟩

/-- C5 witness: the flag equation and the signer enumeration at the fixture
instruction. -/
theorem create_class_signer_flag_witness :
    testCreateInstr.keys[4]? = some ⟨testCreateParams.class_account,
      if testCreateParams.class_account = SYS_PROGRAM_ID then false else true,
      false⟩ ∧
    ∀ m ∈ testCreateInstr.keys, m.is_signer = true →
      m.pubkey = testCreateParams.funding_account ∨
      (m.pubkey = testCreateParams.class_account ∧
        testCreateParams.class_account ≠ SYS_PROGRAM_ID) ∨
      (m.pubkey = testCreateParams.parent_owner_account ∧
        testCreateParams.parent_account ≠ SYS_PROGRAM_ID) :=
  create_class_signer_flag fpaConst testCreateParams testCreateInstr rfl

/-- C10: every create instruction actually produced from params with a
non-default parent account carries 7 account references, and
`decode_create_name` — which demands exactly 6 — rejects it. -/
theorem decode_create_rejects_parented (fpa : Fpa) (p : CreateNameParams)
    (i : TransactionInstruction) (hp : p.parent_account ≠ SYS_PROGRAM_ID)
    (h : create_name fpa p = .ok i) :
    i.keys.length = 7 ∧ decode_create_name i = none := by
  unfold create_name at h
  split at h
  · exact absurd h (by simp)
  · split at h
    · exact absurd h (by simp)
    · split at h
      · exact absurd h (by simp)
      · rw [Except.ok.injEq] at h
        subst h
        by_cases hc : p.class_account = SYS_PROGRAM_ID <;>
          simp [decode_create_name, validate_instruction_keys, hp, hc]

/-- Create params with a non-default parent and an explicit parent owner. -/
def testParentParamsWithOwner : CreateNameParams :=
  { funding_account := testFundingKey, hashed_name := testHashedName,
    lamports := 123, space := 10, parent_account := List.replicate 32 2,
    parent_owner_account := List.replicate 32 8 }

/-- The concrete 7-reference create instruction from the parented fixture. -/
def testParentInstr : TransactionInstruction :=
  (create_name fpaConst testParentParamsWithOwner).toOption.getD ⟨[], [], []⟩

/-- C10 witness: the parented fixture instruction has 7 references and its
own decoder rejects it. -/
theorem decode_create_rejects_parented_witness :
    testParentInstr.keys.length = 7 ∧
    decode_create_name testParentInstr = none :=
  decode_create_rejects_parented fpaConst testParentParamsWithOwner
    testParentInstr (by decide) rfl

end SolanaPy
